import Mathlib

/-
Verification development for the OMP/JCMT database-access layer
(lib/omp/db/db.py).  The definitions below are shallow embeddings of the
query predicates, query builders and mutators of that file; each definition's
doc comment cites the source lines it models.  SQL NULL-able columns become
Option, SQL three-valued WHERE logic is collapsed to Bool (a row is selected
only when the condition evaluates to TRUE, so NULL comparisons are false),
and CONVERT_TZ from UTC to the system zone is modelled as adding a fixed
offset tz.
-/

set_option maxHeartbeats 1000000

namespace OmpDb

/-- Python truthiness of an optional string argument, as used by the guards
such as "if queue:" in the source (None and the empty string are falsy). -/
def oTruthy : Option String → Bool
  | none => false
  | some s => !(s == "")

/-- Python truthiness for optional list arguments, matching guards such as
"if ignore_instruments:" and "projects is not None and projects != []"
(None and the empty list are falsy). -/
def pTruthy : Option (List String) → Bool
  | none => false
  | some l => !(l == [])

/-- One row of jcmt.COMMON, with the columns used by
find_obs_for_ingestion and set_last_caom_mod (db.py lines 112-229).
Timestamps are modelled as integers; last_caom_mod is nullable. -/
structure CommonRow where
  obsid : String
  utdate : Int
  instrume : String
  project : String
  date_obs : Int
  date_end : Int
  last_modified : Int
  last_caom_mod : Option Int
deriving DecidableEq

/-- One row of omp.ompobslog with the columns this layer reads. -/
structure OmpObsLog where
  obslogid : Int
  obsid : String
  obsactive : Int
  commentstatus : Int
  commentdate : Int
deriving DecidableEq

/-- One row of jcmt.FILES (file_id, obsid). -/
structure JcmtFile where
  file_id : String
  obsid : String
deriving DecidableEq

/-- One row of jcmt.transfer (file_id, status). -/
structure JcmtTransfer where
  file_id : String
  status : String
deriving DecidableEq

/-- SQL MAX over a list of integers (NULL when the list is empty). -/
def maxIntOpt : List Int → Option Int
  | [] => none
  | x :: xs =>
    match maxIntOpt xs with
    | none => some x
    | some m => some (max x m)

/-- The scalar subquery of find_obs_for_ingestion, db.py lines 172-174:
SELECT MAX(commentdate) FROM omp.ompobslog AS o WHERE o.obsid=c.obsid.
Note that the subquery has no obsactive filter and takes the maximum
commentdate over all log rows for the obsid. -/
def maxCommentdateAll (logs : List OmpObsLog) (obsid : String) : Option Int :=
  maxIntOpt ((logs.filter (fun r => r.obsid == obsid)).map (fun r => r.commentdate))

/-- Sub-clause "(last_caom_mod IS NULL)" (db.py line 167). -/
def clause_lcm_null (c : CommonRow) : Bool :=
  c.last_caom_mod.isNone

/-- Sub-clause "(last_modified > last_caom_mod)" (db.py line 168); the SQL
comparison with a NULL last_caom_mod is not TRUE, hence false here. -/
def clause_modified (c : CommonRow) : Bool :=
  match c.last_caom_mod with
  | none => false
  | some lcm => decide (lcm < c.last_modified)

/-- Sub-clause "(last_caom_mod < (SELECT CONVERT_TZ(MAX(commentdate), ...)
FROM omp.ompobslog AS o WHERE o.obsid=c.obsid))" (db.py lines 171-174);
tz is the offset CONVERT_TZ adds going from UTC to the system zone.  A NULL
on either side makes the SQL comparison not TRUE. -/
def clause_comment (tz : Int) (logs : List OmpObsLog) (c : CommonRow) : Bool :=
  match c.last_caom_mod, maxCommentdateAll logs c.obsid with
  | some lcm, some mx => decide (lcm < mx + tz)
  | _, _ => false

/-- The status condition of find_obs_for_ingestion (db.py lines 164-175):
the OR of the three sub-clauses, with the comment sub-clause included only
when no_status_check is unset. -/
def statusCondition (no_status_check : Bool) (tz : Int) (logs : List OmpObsLog)
    (c : CommonRow) : Bool :=
  clause_lcm_null c || clause_modified c ||
    (!no_status_check && clause_comment tz logs c)

/-- Terminal transfer statuses, db.py line 183. -/
def terminalTransferStatuses : List String := ["t", "d", "D", "z"]

/-- The COUNT(*) of the transfer-check subquery (db.py lines 179-184):
files of the obsid joined with transfer rows whose status is not terminal. -/
def pendingTransferCount (files : List JcmtFile) (transfers : List JcmtTransfer)
    (obsid : String) : Nat :=
  ((files.filter (fun f => f.obsid == obsid)).map (fun f =>
    (transfers.filter (fun t =>
      t.file_id == f.file_id && !(terminalTransferStatuses.contains t.status))).length)).sum

/-- The full WHERE predicate of find_obs_for_ingestion (db.py lines 143-186)
evaluated on one jcmt.COMMON row: date-range bounds, instrument exclusion,
minimum age (TIMESTAMPDIFF(HOUR, date_obs, now) >= min_age_hours), the
status condition, and the transfer check. -/
def findObsSelected (now tz : Int) (utdate_start utdate_end : Option Int)
    (ignore_instruments : Option (List String)) (min_age_hours : Option Int)
    (no_status_check no_transfer_check : Bool)
    (logs : List OmpObsLog) (files : List JcmtFile) (transfers : List JcmtTransfer)
    (c : CommonRow) : Bool :=
  (match utdate_start with
   | none => true
   | some us => decide (us ≤ c.utdate)) &&
  (match utdate_end with
   | none => true
   | some ue => decide (c.utdate ≤ ue)) &&
  (!(pTruthy ignore_instruments && (ignore_instruments.getD []).contains c.instrume)) &&
  (match min_age_hours with
   | none => true
   | some ma => decide (ma ≤ (now - c.date_obs) / 3600)) &&
  statusCondition no_status_check tz logs c &&
  (no_transfer_check || decide (pendingTransferCount files transfers c.obsid = 0))

/-- The instrument-exclusion fragment of find_obs_for_ingestion, db.py
lines 155-157: values are formatted directly into the query text as quoted
literals. -/
def instrListFragment (l : List String) : String :=
  "(instrume not in (" ++
    String.intercalate ", " (l.map (fun x => "\"" ++ x ++ "\"")) ++ "))"

/-- WHERE fragment for utdate_start, db.py line 149. -/
def utdateStartFragment : String := "(utdate >= %(us)s)"

/-- WHERE fragment for utdate_end, db.py line 152. -/
def utdateEndFragment : String := "(utdate <= %(ue)s)"

/-- WHERE fragment for min_age_hours, db.py line 162. -/
def minAgeFragment : String :=
  "(TIMESTAMPDIFF(HOUR, date_obs, UTC_TIMESTAMP()) >= %(ma)s)"

/-- The comment sub-clause text, db.py lines 172-174. -/
def commentClauseFragment : String :=
  "(last_caom_mod < (SELECT CONVERT_TZ(MAX(commentdate), \"+00:00\", \"SYSTEM\") FROM omp.ompobslog AS o WHERE o.obsid=c.obsid))"

/-- The status-condition fragment, db.py lines 166-175. -/
def statusConditionFragment (no_status_check : Bool) : String :=
  "(" ++ String.intercalate " OR "
    (["(last_caom_mod IS NULL)", "(last_modified > last_caom_mod)"] ++
     (if no_status_check then [] else [commentClauseFragment])) ++ ")"

/-- The transfer-check fragment, db.py lines 179-184. -/
def transferCheckFragment : String :=
  "(SELECT COUNT(*) FROM jcmt.FILES AS f JOIN jcmt.transfer AS t ON f.file_id=t.file_id WHERE f.obsid=c.obsid AND t.status NOT IN (\"t\", \"d\", \"D\", \"z\")) = 0"

/-- The WHERE-fragment list and named-parameter mapping built by
find_obs_for_ingestion before the query is executed. -/
structure FindObsQuery where
  whereList : List String
  args : List (String × Int)
deriving DecidableEq

/-- The query-assembly phase of find_obs_for_ingestion (db.py lines 143-186):
builds the list of WHERE fragments and the parameter mapping, in source
order (us, ue, instrument literals, ma, status condition, transfer check). -/
def findObsWhereArgs (utdate_start utdate_end : Option Int)
    (ignore_instruments : Option (List String)) (min_age_hours : Option Int)
    (no_status_check no_transfer_check : Bool) : FindObsQuery :=
  let wa1 : List String × List (String × Int) :=
    match utdate_start with
    | some us => ([utdateStartFragment], [("us", us)])
    | none => ([], [])
  let wa2 : List String × List (String × Int) :=
    match utdate_end with
    | some ue => (wa1.1 ++ [utdateEndFragment], wa1.2 ++ [("ue", ue)])
    | none => wa1
  let w3 : List String :=
    if pTruthy ignore_instruments then
      wa2.1 ++ [instrListFragment (ignore_instruments.getD [])]
    else wa2.1
  let wa4 : List String × List (String × Int) :=
    match min_age_hours with
    | some ma => (w3 ++ [minAgeFragment], wa2.2 ++ [("ma", ma)])
    | none => (w3, wa2.2)
  let w5 := wa4.1 ++ [statusConditionFragment no_status_check]
  let w6 := if no_transfer_check then w5 else w5 ++ [transferCheckFragment]
  ⟨w6, wa4.2⟩

/-- The single UPDATE issued by set_last_caom_mod (db.py lines 214-221),
applied to one jcmt.COMMON row: when the row matches the obsid, it sets
last_caom_mod to NULL or NOW() and explicitly assigns
last_modified = last_modified (pinning it against the store's auto-update);
other columns are not assigned. -/
def set_last_caom_mod_row (obsid : String) (set_null : Bool) (now : Int)
    (r : CommonRow) : CommonRow :=
  if r.obsid == obsid then
    ⟨r.obsid, r.utdate, r.instrume, r.project, r.date_obs, r.date_end,
     r.last_modified, if set_null then none else some now⟩
  else r

/-- set_last_caom_mod applied to the whole jcmt.COMMON table (one UPDATE
statement touching all rows matching the obsid). -/
def set_last_caom_mod (obsid : String) (set_null : Bool) (now : Int)
    (common : List CommonRow) : List CommonRow :=
  common.map (set_last_caom_mod_row obsid set_null now)

/-- The table list of rename_project, db.py lines 989-1002, verbatim
(twelve entries; the source lists ompobs twice). -/
def renameTables : List String :=
  ["ompfaultassoc", "ompfeedback", "ompmsb", "ompmsbdone", "ompobs", "ompobs",
   "ompproj", "ompprojaffiliation", "ompprojqueue", "ompprojuser",
   "ompsciprog", "omptimeacct"]

/-- The OMP tables touched by rename_project, modelled as the multiset of
projectid values each table holds (only the projectid column matters to
rename_project). -/
abbrev OmpTables : Type := String → List String

/-- SELECT COUNT(*) FROM omp.{table} WHERE projectid=pid (db.py line 1009). -/
def rowCount (db : OmpTables) (table pid : String) : Nat :=
  ((db table).filter (fun p => p == pid)).length

/-- The error message of the phase-1 guard, db.py lines 1015-1017. -/
def renameErrMsg (pnew table : String) : String :=
  "project code " ++ pnew ++ " already exists in table " ++ table

/-- One phase-2 UPDATE: omp.{table} SET projectid=new WHERE projectid=old
(db.py lines 1022-1024). -/
def renameOneTable (db : OmpTables) (pold pnew table : String) : OmpTables :=
  fun tbl =>
    if tbl == table then (db tbl).map (fun p => if p == pold then pnew else p)
    else db tbl

/-- Phase 2 of rename_project: the UPDATE loop over all listed tables. -/
def applyRenamePhase2 (db : OmpTables) (pold pnew : String) : OmpTables :=
  renameTables.foldl (fun s table => renameOneTable s pold pnew table) db

/-- rename_project (db.py lines 983-1024): phase 1 scans the tables in order
and raises on the first one holding rows for the new projectid; only when no
table conflicts does phase 2 run the UPDATE loop.  The result pairs the
database state after the call with the raised error message (if any);
in the error case the returned state is the input state, since the failure
occurs in the read-only transaction before any UPDATE is issued. -/
def rename_project (db : OmpTables) (pold pnew : String) :
    OmpTables × Option String :=
  match renameTables.find? (fun table => decide (rowCount db table pnew ≠ 0)) with
  | some table => (db, some (renameErrMsg pnew table))
  | none => (applyRenamePhase2 db pold pnew, none)

/-- Quoted literal list for project ids, db.py line 398. -/
def projString (l : List String) : String :=
  String.intercalate ", " (l.map (fun i => "\x27" ++ i ++ "\x27"))

/-- The four values returned by create_group_project_query
(select statement, from statement, WHERE fragment list, parameter mapping). -/
structure GroupProjectQuery where
  selectstatement : String
  fromstatement : String
  wherequery : List String
  args : List (String × String)
deriving DecidableEq

/-- The default of the telescope parameter in the source signature
(db.py line 373: telescope='JCMT'). -/
def defaultTelescope : Option String := some "JCMT"

/-- create_group_project_query (db.py lines 373-409): each truthy criterion
appends exactly one WHERE fragment, in source order queue, semester,
projects, patternmatch, telescope; queue also extends the FROM statement;
projects are embedded as a quoted literal list and add no parameter. -/
def create_group_project_query (semester queue : Option String)
    (projects : Option (List String)) (patternmatch telescope : Option String) :
    GroupProjectQuery :=
  let sel := "SELECT p.projectid "
  let from0 := "FROM omp.ompproj AS p "
  let waf1 : List String × List (String × String) × String :=
    if oTruthy queue then
      ([" q.country=%(queue)s "], [("queue", queue.getD "")],
       from0 ++ "JOIN omp.ompprojqueue AS q  ON p.projectid=q.projectid ")
    else ([], [], from0)
  let wa2 : List String × List (String × String) :=
    if oTruthy semester then
      (waf1.1 ++ [" p.semester=%(semester)s "],
       waf1.2.1 ++ [("semester", semester.getD "")])
    else (waf1.1, waf1.2.1)
  let wa3 : List String × List (String × String) :=
    if pTruthy projects then
      (wa2.1 ++ [" p.projectid in (" ++ projString (projects.getD []) ++ ") "],
       wa2.2)
    else wa2
  let wa4 : List String × List (String × String) :=
    if oTruthy patternmatch then
      (wa3.1 ++ [" p.projectid LIKE %(pattern)s "],
       wa3.2 ++ [("pattern", patternmatch.getD "")])
    else wa3
  let wa5 : List String × List (String × String) :=
    if oTruthy telescope then
      (wa4.1 ++ [" p.telescope=%(telescope)s "],
       wa4.2 ++ [("telescope", telescope.getD "")])
    else wa4
  ⟨sel, waf1.2.2, wa5.1, wa5.2⟩

/-- The opacity-band CASE of get_summary_obs_info_group in wvmtau mode
(db.py lines 454-465): guarded by the 10-minute proximity of the WVM sample
timestamps (modelled as the boolean proximity_ok), then a chain starting
with BETWEEN 0.0005 AND 0.05, then <= 0.08, <= 0.12, <= 0.2, < 50. -/
def band_group_wvm (proximity_ok : Bool) (wvmtaust wvmtauen : ℚ) : String :=
  if proximity_ok then
    if (0.0005 : ℚ) ≤ (wvmtaust + wvmtauen) / 2 ∧ (wvmtaust + wvmtauen) / 2 ≤ 0.05 then "1"
    else if (wvmtaust + wvmtauen) / 2 ≤ 0.08 then "2"
    else if (wvmtaust + wvmtauen) / 2 ≤ 0.12 then "3"
    else if (wvmtaust + wvmtauen) / 2 ≤ 0.2 then "4"
    else if (wvmtaust + wvmtauen) / 2 < 50 then "5"
    else "unknown"
  else "unknown"

/-- The opacity-band CASE of get_summary_obs_info_group in csotau mode
(db.py lines 481-486): a BETWEEN chain with cut points
0.005/0.05/0.08/0.12/0.2/100. -/
def band_group_cso (tau225st tau225en : ℚ) : String :=
  if (0.005 : ℚ) ≤ (tau225st + tau225en) / 2 ∧ (tau225st + tau225en) / 2 ≤ 0.05 then "1"
  else if (0.05 : ℚ) ≤ (tau225st + tau225en) / 2 ∧ (tau225st + tau225en) / 2 ≤ 0.08 then "2"
  else if (0.08 : ℚ) ≤ (tau225st + tau225en) / 2 ∧ (tau225st + tau225en) / 2 ≤ 0.12 then "3"
  else if (0.12 : ℚ) ≤ (tau225st + tau225en) / 2 ∧ (tau225st + tau225en) / 2 ≤ 0.2 then "4"
  else if (0.2 : ℚ) ≤ (tau225st + tau225en) / 2 ∧ (tau225st + tau225en) / 2 ≤ 100 then "5"
  else "unknown"

/-- The opacity-band CASE of get_summary_obs_info in wvmtau mode
(db.py lines 555-560): a BETWEEN chain with cut points
0.005/0.05/0.08/0.12/0.2/100. -/
def band_sum_wvm (wvmtaust wvmtauen : ℚ) : String :=
  if (0.005 : ℚ) ≤ (wvmtaust + wvmtauen) / 2 ∧ (wvmtaust + wvmtauen) / 2 ≤ 0.05 then "1"
  else if (0.05 : ℚ) ≤ (wvmtaust + wvmtauen) / 2 ∧ (wvmtaust + wvmtauen) / 2 ≤ 0.08 then "2"
  else if (0.08 : ℚ) ≤ (wvmtaust + wvmtauen) / 2 ∧ (wvmtaust + wvmtauen) / 2 ≤ 0.12 then "3"
  else if (0.12 : ℚ) ≤ (wvmtaust + wvmtauen) / 2 ∧ (wvmtaust + wvmtauen) / 2 ≤ 0.2 then "4"
  else if (0.2 : ℚ) ≤ (wvmtaust + wvmtauen) / 2 ∧ (wvmtaust + wvmtauen) / 2 ≤ 100 then "5"
  else "unknown"

/-- The opacity-band CASE of get_summary_obs_info in csotau mode
(db.py lines 576-581): a BETWEEN chain with cut points
0.005/0.05/0.08/0.12/0.2/100. -/
def band_sum_cso (tau225st tau225en : ℚ) : String :=
  if (0.005 : ℚ) ≤ (tau225st + tau225en) / 2 ∧ (tau225st + tau225en) / 2 ≤ 0.05 then "1"
  else if (0.05 : ℚ) ≤ (tau225st + tau225en) / 2 ∧ (tau225st + tau225en) / 2 ≤ 0.08 then "2"
  else if (0.08 : ℚ) ≤ (tau225st + tau225en) / 2 ∧ (tau225st + tau225en) / 2 ≤ 0.12 then "3"
  else if (0.12 : ℚ) ≤ (tau225st + tau225en) / 2 ∧ (tau225st + tau225en) / 2 ≤ 0.2 then "4"
  else if (0.2 : ℚ) ≤ (tau225st + tau225en) / 2 ∧ (tau225st + tau225en) / 2 ≤ 100 then "5"
  else "unknown"

/-- The day/night CASE, identical in all four report variants (db.py lines
466-469, 488-491, 562-565, 583-586): night when
HOUR(date_obs) + MINUTE(date_obs)/60.0 BETWEEN 3.5 AND 19.5, else day. -/
def daynight (h m : ℕ) : String :=
  if (3.5 : ℚ) ≤ (h : ℚ) + (m : ℚ) / 60 ∧ (h : ℚ) + (m : ℚ) / 60 ≤ 19.5 then
    "night"
  else "day"

/-- The active log rows for an obsid (WHERE obsid=... AND obsactive=1,
db.py lines 91-92). -/
def activeLogs (logs : List OmpObsLog) (obsid : String) : List OmpObsLog :=
  logs.filter (fun r => r.obsid == obsid && r.obsactive == 1)

/-- SELECT MAX(obslogid) FROM omp.ompobslog WHERE obsid=... AND obsactive=1
(db.py lines 91-92). -/
def maxActiveObslogid (logs : List OmpObsLog) (obsid : String) : Option Int :=
  maxIntOpt ((activeLogs logs obsid).map (fun r => r.obslogid))

/-- The rows fetched by get_obsid_status (db.py lines 89-92): all log rows
whose obslogid equals the MAX subquery's value; no rows when the subquery
is NULL, since an SQL equality with NULL is not TRUE. -/
def obsidStatusRows (logs : List OmpObsLog) (obsid : String) : List OmpObsLog :=
  match maxActiveObslogid logs obsid with
  | none => []
  | some m => logs.filter (fun r => r.obslogid == m)

/-- get_obsid_status (db.py lines 82-110), with comment=False so the payload
is the commentstatus column: None when no row matched, an error when more
than one row matched, otherwise the single row's commentstatus. -/
def get_obsid_status (logs : List OmpObsLog) (obsid : String) :
    Except String (Option Int) :=
  match obsidStatusRows logs obsid with
  | [] => Except.ok none
  | [r] => Except.ok (some r.commentstatus)
  | _ => Except.error "multiple status results for one obsid"

/-- One row of the user query of get_project_info (db.py lines 1182-1184). -/
structure UserRow where
  userid : String
  uname : String
  email : String
  cadcuser : String
  contactable : Int
  capacity : String
deriving DecidableEq

/-- The userinfo namedtuple (db.py line 1180): the user row minus capacity. -/
structure Userinfo where
  userid : String
  uname : String
  email : String
  cadcuser : String
  contactable : Int
deriving DecidableEq

/-- The i[0:-1] projection of a user row (db.py lines 1198-1204). -/
def userinfoOf (u : UserRow) : Userinfo :=
  ⟨u.userid, u.uname, u.email, u.cadcuser, u.contactable⟩

/-- One row of the project query of get_project_info (db.py lines 1186-1188):
projectid, title, semester, country, allocated and remaining in hours,
taumin, taumax, state. -/
structure ProjRow where
  projectid : String
  title : String
  semester : String
  country : String
  allocated_hours : ℚ
  remaining_hours : ℚ
  taumin : ℚ
  taumax : ℚ
  state : Int
deriving DecidableEq

/-- The projinfo namedtuple of get_project_info (db.py line 1179). -/
structure Projinfo where
  id : String
  title : String
  semester : String
  country : String
  allocated_hours : ℚ
  remaining_hours : ℚ
  opacityrange : ℚ × ℚ
  state : Int
  pi : List Userinfo
  fops : List Userinfo
  cois : List Userinfo
deriving DecidableEq

/-- get_project_info (db.py lines 1171-1217) on the fetched result sets:
splits users by capacity, raises only when the project query returned zero
rows, and otherwise builds the projinfo record from the FIRST project row
(db.py lines 1209-1216; several rows only produce a logged warning). -/
def get_project_info (projectcode : String) (uservalues : List UserRow)
    (projvalues : List ProjRow) : Except String Projinfo :=
  let pi := (uservalues.filter (fun u => u.capacity == "PI")).map userinfoOf
  let cois := (uservalues.filter (fun u => u.capacity == "COI")).map userinfoOf
  let fops := (uservalues.filter (fun u => u.capacity == "SUPPORT")).map userinfoOf
  match projvalues with
  | [] => Except.error ("No project found for " ++ projectcode)
  | p :: _ =>
    Except.ok ⟨p.projectid, p.title, p.semester, p.country, p.allocated_hours,
      p.remaining_hours, (p.taumin, p.taumax), p.state, pi, fops, cois⟩

/-- Whether a get_project_info call returned a result (did not raise). -/
def exceptIsOk : Except String Projinfo → Bool
  | Except.ok _ => true
  | Except.error _ => false

/-- Example COMMON row for claim C1: last_caom_mod set to 100 while
last_modified is only 50. -/
def c1RowEx : CommonRow :=
  ⟨"obsX", 20240101, "SCUBA-2", "M20AI001", 0, 0, 50, some 100⟩

/-- Example log table for claim C1: a single INACTIVE comment row
(obsactive = 0) with commentdate 200, newer than last_caom_mod. -/
def c1LogEx : List OmpObsLog := [⟨1, "obsX", 0, 0, 200⟩]

/-- Example COMMON row that fails the status condition: ingested at 100,
last modified at 40, no comments. -/
def c1RowNotDue : CommonRow :=
  ⟨"obsY", 20240101, "SCUBA-2", "M20AI001", 0, 0, 40, some 100⟩

/-- Example COMMON row for claim C2. -/
def c2RowEx : CommonRow :=
  ⟨"obsZ", 20240102, "HARP", "M20AI001", 3, 9, 77, some 10⟩

/-- Example database for claim C3: the new project id already has one row
in ompproj. -/
def c3DbEx : OmpTables :=
  fun t => if t == "ompproj" then ["M20AI002"] else []

/-- Example project rows for claim C7: the same project code in two
semesters. -/
def c7ProjRow1 : ProjRow :=
  ⟨"M20AI001", "Title", "20A", "CA", 10, 5, 0.05, 0.2, 1⟩

/-- Second example project row for claim C7. -/
def c7ProjRow2 : ProjRow :=
  ⟨"M20AI001", "Title", "20B", "CA", 10, 5, 0.05, 0.2, 1⟩

/-- Example log table for claim C7: two active rows sharing obslogid 5. -/
def c7LogsEx : List OmpObsLog :=
  [⟨5, "obsW", 1, 1, 0⟩, ⟨5, "obsW", 1, 2, 0⟩]

/-- Example log table for claim C10: one row for the obsid, inactive. -/
def c10LogsEx : List OmpObsLog := [⟨1, "obsV", 0, 3, 0⟩]

/-- maxIntOpt is NULL exactly on the empty list. -/
theorem maxIntOpt_eq_none_iff (l : List Int) : maxIntOpt l = none ↔ l = [] := by
  cases l with
  | nil => simp [maxIntOpt]
  | cons x xs =>
    simp only [maxIntOpt]
    cases maxIntOpt xs <;> simp

/-- maxIntOpt returns exactly the greatest element of a nonempty list. -/
theorem maxIntOpt_eq_some_iff :
    ∀ (l : List Int) (m : Int), maxIntOpt l = some m ↔ (m ∈ l ∧ ∀ x ∈ l, x ≤ m) := by
  intro l
  induction l with
  | nil => intro m; simp [maxIntOpt]
  | cons x xs ih =>
    intro m
    cases hxs : maxIntOpt xs with
    | none =>
      have hnil : xs = [] := (maxIntOpt_eq_none_iff xs).mp hxs
      subst hnil
      constructor
      · intro h
        have hxm : x = m := by simpa [maxIntOpt] using h
        subst hxm
        constructor
        · exact List.mem_cons_self _ _
        · intro y hy
          have hyx : y = x := by simpa using hy
          subst hyx
          exact le_refl _
      · rintro ⟨hm, _⟩
        have hmx : m = x := by simpa using hm
        subst hmx
        simp [maxIntOpt]
    | some mm =>
      have ihm : mm ∈ xs ∧ ∀ y ∈ xs, y ≤ mm := (ih mm).mp hxs
      simp only [maxIntOpt, hxs]
      constructor
      · intro h
        have hmax : max x mm = m := by injection h
        constructor
        · rcases max_choice x mm with hc | hc
          · rw [hc] at hmax; subst hmax; exact List.mem_cons_self _ _
          · rw [hc] at hmax; subst hmax; exact List.mem_cons_of_mem _ ihm.1
        · intro y hy
          rcases List.mem_cons.mp hy with hy | hy
          · subst hy; rw [← hmax]; exact le_max_left _ _
          · calc y ≤ mm := ihm.2 y hy
              _ ≤ max x mm := le_max_right _ _
              _ = m := hmax
      · rintro ⟨hm, hub⟩
        have hx : x ≤ m := hub x (List.mem_cons_self _ _)
        have hmm : mm ≤ m := hub mm (List.mem_cons_of_mem _ ihm.1)
        have hle : max x mm ≤ m := max_le hx hmm
        have hge : m ≤ max x mm := by
          rcases List.mem_cons.mp hm with hm | hm
          · subst hm; exact le_max_left _ _
          · calc m ≤ mm := ihm.2 m hm
              _ ≤ max x mm := le_max_right _ _
        rw [le_antisymm hle hge]

/-- The MAX(commentdate) subquery is NULL exactly when the obsid has no log
rows at all. -/
theorem maxCommentdateAll_eq_none_iff (logs : List OmpObsLog) (obsid : String) :
    maxCommentdateAll logs obsid = none ↔ ∀ r ∈ logs, r.obsid ≠ obsid := by
  unfold maxCommentdateAll
  rw [maxIntOpt_eq_none_iff, List.map_eq_nil_iff, List.filter_eq_nil_iff]
  simp

/-- The MAX(commentdate) subquery characterised: it returns mx exactly when
some log row of the obsid has commentdate mx and every log row of the obsid
has commentdate at most mx. -/
theorem maxCommentdateAll_eq_some_iff (logs : List OmpObsLog) (obsid : String)
    (mx : Int) :
    maxCommentdateAll logs obsid = some mx ↔
      ((∃ r ∈ logs, r.obsid = obsid ∧ r.commentdate = mx) ∧
       ∀ r ∈ logs, r.obsid = obsid → r.commentdate ≤ mx) := by
  unfold maxCommentdateAll
  rw [maxIntOpt_eq_some_iff]
  constructor
  · rintro ⟨hmem, hub⟩
    rw [List.mem_map] at hmem
    obtain ⟨r, hrf, hrc⟩ := hmem
    rw [List.mem_filter] at hrf
    refine ⟨⟨r, hrf.1, by simpa using hrf.2, hrc⟩, ?_⟩
    intro r' hr' ho'
    apply hub
    rw [List.mem_map]
    exact ⟨r', List.mem_filter.mpr ⟨hr', by simpa using ho'⟩, rfl⟩
  · rintro ⟨⟨r, hrl, hro, hrc⟩, hub⟩
    constructor
    · rw [List.mem_map]
      exact ⟨r, List.mem_filter.mpr ⟨hrl, by simpa using hro⟩, hrc⟩
    · intro x hx
      rw [List.mem_map] at hx
      obtain ⟨r', hr'f, hr'c⟩ := hx
      rw [List.mem_filter] at hr'f
      rw [← hr'c]
      exact hub r' hr'f.1 (by simpa using hr'f.2)

/-- The NULL sub-clause holds exactly when last_caom_mod is NULL. -/
theorem clause_lcm_null_iff (c : CommonRow) :
    clause_lcm_null c = true ↔ c.last_caom_mod = none := by
  simp [clause_lcm_null, Option.isNone_iff_eq_none]

/-- The last_modified sub-clause holds exactly when last_caom_mod is non-NULL
and strictly older than last_modified. -/
theorem clause_modified_iff (c : CommonRow) :
    clause_modified c = true ↔
      ∃ lcm, c.last_caom_mod = some lcm ∧ lcm < c.last_modified := by
  cases h : c.last_caom_mod <;> simp [clause_modified, h]

/-- The comment sub-clause holds exactly when last_caom_mod is non-NULL and
strictly before the converted maximum commentdate over ALL log rows of the
obsid (active or not). -/
theorem clause_comment_iff (tz : Int) (logs : List OmpObsLog) (c : CommonRow) :
    clause_comment tz logs c = true ↔
      ∃ lcm r, c.last_caom_mod = some lcm ∧ r ∈ logs ∧ r.obsid = c.obsid ∧
        (∀ r' ∈ logs, r'.obsid = c.obsid → r'.commentdate ≤ r.commentdate) ∧
        lcm < r.commentdate + tz := by
  cases hl : c.last_caom_mod with
  | none => simp [clause_comment, hl]
  | some lcm =>
    cases hm : maxCommentdateAll logs c.obsid with
    | none =>
      have hno : ∀ r ∈ logs, r.obsid ≠ c.obsid :=
        (maxCommentdateAll_eq_none_iff logs c.obsid).mp hm
      simp only [clause_comment, hl, hm]
      constructor
      · intro h; cases h
      · rintro ⟨lcm', r, _, hrl, hro, _, _⟩
        exact absurd hro (hno r hrl)
    | some mx =>
      obtain ⟨⟨r, hrl, hro, hrc⟩, hub⟩ :=
        (maxCommentdateAll_eq_some_iff logs c.obsid mx).mp hm
      constructor
      · intro h
        have hlt : lcm < mx + tz := by
          simpa [clause_comment, hl, hm] using h
        refine ⟨lcm, r, rfl, hrl, hro, ?_, ?_⟩
        · intro r' h1 h2; rw [hrc]; exact hub r' h1 h2
        · rw [hrc]; omega
      · rintro ⟨lcm', r', hsome, hr'l, hr'o, _, hlt⟩
        have he : lcm' = lcm := by
          injection hsome with h1
          exact h1.symm
        subst he
        have hle : r'.commentdate ≤ mx := hub r' hr'l hr'o
        simp only [clause_comment, hl, hm, decide_eq_true_eq]
        omega

/-- Claim C1, counterexample: an observation whose last_caom_mod is set
(100), whose last_modified (50) is NOT after it, and whose obsid has no
active comment at all, still satisfies the code's status condition — and is
returned by the scan — because the comment sub-clause compares against
MAX(commentdate) over ALL log rows, including the inactive row with
commentdate 200.  This falsifies the claimed iff. -/
theorem c1_counterexample :
    statusCondition false 0 c1LogEx c1RowEx = true ∧
    findObsSelected 1000000 0 none none none none false true c1LogEx [] [] c1RowEx = true ∧
    c1RowEx.last_caom_mod = some 100 ∧
    ¬(100 < c1RowEx.last_modified) ∧
    (∀ r ∈ c1LogEx, ¬(r.obsid = c1RowEx.obsid ∧ r.obsactive = 1)) := by
  decide

/-- Claim C1, amended: the status condition holds iff last_caom_mod is NULL,
OR last_modified is strictly after last_caom_mod, OR — unless
no_status_check is set — the maximum commentdate over ALL ompobslog rows of
the obsid (active or not; the subquery has no obsactive filter and takes
MAX(commentdate), not the row of max obslogid), converted from UTC to the
system zone, is strictly after last_caom_mod; and an observation satisfying
none of these sub-clauses is never selected by the scan. -/
theorem c1_status_condition_amended :
    ∀ (nsc : Bool) (tz : Int) (logs : List OmpObsLog) (c : CommonRow),
      (statusCondition nsc tz logs c = true ↔
        (c.last_caom_mod = none ∨
         (∃ lcm, c.last_caom_mod = some lcm ∧ lcm < c.last_modified) ∨
         (nsc = false ∧ ∃ lcm r, c.last_caom_mod = some lcm ∧ r ∈ logs ∧
            r.obsid = c.obsid ∧
            (∀ r' ∈ logs, r'.obsid = c.obsid → r'.commentdate ≤ r.commentdate) ∧
            lcm < r.commentdate + tz))) ∧
      (∀ (now : Int) (us ue : Option Int) (ii : Option (List String))
         (ma : Option Int) (ntc : Bool) (files : List JcmtFile)
         (transfers : List JcmtTransfer),
        statusCondition nsc tz logs c = false →
        findObsSelected now tz us ue ii ma nsc ntc logs files transfers c = false) := by
  intro nsc tz logs c
  constructor
  · unfold statusCondition
    simp only [Bool.or_eq_true, Bool.and_eq_true, Bool.not_eq_true']
    rw [clause_lcm_null_iff, clause_modified_iff, clause_comment_iff]
    exact or_assoc
  · intro now us ue ii ma ntc files transfers h
    simp [findObsSelected, h]

/-- Witness for the amended claim C1: a concrete observation failing the
status condition is not selected. -/
theorem c1_amended_witness :
    findObsSelected 0 0 none none none none false false [] [] [] c1RowNotDue = false :=
  (c1_status_condition_amended false 0 [] c1RowNotDue).2 0 none none none none
    false [] [] (by decide)

/-- Claim C2: set_last_caom_mod writes last_caom_mod (NULL when set_null,
else the current time) while assigning last_modified to its own current
value in the same single UPDATE, so on a matched row every column other
than last_caom_mod — last_modified included — is unchanged. -/
theorem c2_set_last_caom_mod (obsid : String) (sn : Bool) (now : Int)
    (r : CommonRow) (h : r.obsid = obsid) :
    (set_last_caom_mod_row obsid sn now r).last_caom_mod =
      (if sn then none else some now) ∧
    (set_last_caom_mod_row obsid sn now r).last_modified = r.last_modified ∧
    (set_last_caom_mod_row obsid sn now r).obsid = r.obsid ∧
    (set_last_caom_mod_row obsid sn now r).utdate = r.utdate ∧
    (set_last_caom_mod_row obsid sn now r).instrume = r.instrume ∧
    (set_last_caom_mod_row obsid sn now r).project = r.project ∧
    (set_last_caom_mod_row obsid sn now r).date_obs = r.date_obs ∧
    (set_last_caom_mod_row obsid sn now r).date_end = r.date_end ∧
    set_last_caom_mod obsid sn now [r] = [set_last_caom_mod_row obsid sn now r] := by
  subst h
  simp [set_last_caom_mod_row, set_last_caom_mod]

/-- Witness for claim C2 at a concrete matched row. -/
theorem c2_witness :
    (set_last_caom_mod_row "obsZ" true 5 c2RowEx).last_caom_mod =
      (if true then none else some 5) ∧
    (set_last_caom_mod_row "obsZ" true 5 c2RowEx).last_modified = c2RowEx.last_modified ∧
    (set_last_caom_mod_row "obsZ" true 5 c2RowEx).obsid = c2RowEx.obsid ∧
    (set_last_caom_mod_row "obsZ" true 5 c2RowEx).utdate = c2RowEx.utdate ∧
    (set_last_caom_mod_row "obsZ" true 5 c2RowEx).instrume = c2RowEx.instrume ∧
    (set_last_caom_mod_row "obsZ" true 5 c2RowEx).project = c2RowEx.project ∧
    (set_last_caom_mod_row "obsZ" true 5 c2RowEx).date_obs = c2RowEx.date_obs ∧
    (set_last_caom_mod_row "obsZ" true 5 c2RowEx).date_end = c2RowEx.date_end ∧
    set_last_caom_mod "obsZ" true 5 [c2RowEx] = [set_last_caom_mod_row "obsZ" true 5 c2RowEx] :=
  c2_set_last_caom_mod "obsZ" true 5 c2RowEx rfl

/-- Claim C3: when any of the twelve listed tables already holds rows for
the new project id, rename_project fails with the error naming an offending
table and leaves the database state untouched — the failure is raised in
the read-only phase, before any UPDATE. -/
theorem c3_rename_project_guard (db : OmpTables) (pold pnew : String)
    (h : ∃ t ∈ renameTables, rowCount db t pnew ≠ 0) :
    (rename_project db pold pnew).1 = db ∧
    ∃ t ∈ renameTables, rowCount db t pnew ≠ 0 ∧
      (rename_project db pold pnew).2 = some (renameErrMsg pnew t) := by
  have hfind : (renameTables.find? (fun table => decide (rowCount db table pnew ≠ 0))).isSome := by
    rw [List.find?_isSome]
    obtain ⟨t, ht, hc⟩ := h
    exact ⟨t, ht, by simpa using hc⟩
  obtain ⟨t, heq⟩ := Option.isSome_iff_exists.mp hfind
  have hmem := List.mem_of_find?_eq_some heq
  have hpred : rowCount db t pnew ≠ 0 := by
    have := List.find?_some heq
    simpa using this
  constructor
  · unfold rename_project
    rw [heq]
  · refine ⟨t, hmem, hpred, ?_⟩
    unfold rename_project
    rw [heq]

/-- Witness for claim C3 at a concrete conflicting database. -/
theorem c3_witness :
    (rename_project c3DbEx "M20AI001" "M20AI002").1 = c3DbEx ∧
    ∃ t ∈ renameTables, rowCount c3DbEx t "M20AI002" ≠ 0 ∧
      (rename_project c3DbEx "M20AI001" "M20AI002").2 =
        some (renameErrMsg "M20AI002" t) :=
  c3_rename_project_guard c3DbEx "M20AI001" "M20AI002"
    ⟨"ompproj", by decide, by decide⟩

/-- Claim C4, counterexample: the day/night CASE uses SQL BETWEEN, which is
inclusive at both ends, so a date_obs at exactly UTC 19:30:00 is labeled
"night", not "day" as the claim states. -/
theorem c4_counterexample : daynight 19 30 = "night" := by
  norm_num [daynight]

/-- Claim C4, amended: in every report variant the label is "night" iff
hour + minute/60 lies in the CLOSED interval from 3.5 to 19.5; 03:30:00 is
"night", 03:29:59 is "day", and 19:30:00 is "night" (not "day"). -/
theorem c4_daynight_amended :
    (∀ (h m : ℕ), daynight h m = "night" ↔
      ((3.5 : ℚ) ≤ (h : ℚ) + (m : ℚ) / 60 ∧ (h : ℚ) + (m : ℚ) / 60 ≤ 19.5)) ∧
    daynight 3 30 = "night" ∧ daynight 3 29 = "day" ∧ daynight 19 30 = "night" := by
  refine ⟨?_, by norm_num [daynight], by norm_num [daynight], by norm_num [daynight]⟩
  intro h m
  unfold daynight
  split
  · next hc => exact iff_of_true rfl hc
  · next hc => exact iff_of_false (by decide) hc

/-- Claim C5, counterexample: the bucketing is NOT the same function in
every variant.  At a mean proxy value of 0.0001, the group-report wvmtau
CASE (which starts at 0.0005 and falls through to a bare <= 0.08 branch)
yields band "2", while the summary-report wvmtau CASE (the claimed
0.005/0.05/0.08/0.12/0.2/100 BETWEEN chain) yields "unknown"; at 60 the
former yields "unknown" while the latter would need the 0.2-100 branch. -/
theorem c5_counterexample :
    band_group_wvm true 0.0001 0.0001 = "2" ∧
    band_sum_wvm 0.0001 0.0001 = "unknown" ∧
    band_group_wvm true 60 60 = "unknown" ∧
    band_sum_wvm 60 60 = "5" := by
  refine ⟨?_, ?_, ?_, ?_⟩ <;> norm_num [band_group_wvm, band_sum_wvm]

/-- Claim C5, amended: three of the four variants — get_summary_obs_info in
both modes and get_summary_obs_info_group in csotau mode — are one and the
same BETWEEN chain over the mean with cut points 0.005/0.05/0.08/0.12/0.2/100;
but get_summary_obs_info_group in wvmtau mode is a different function (lower
cut 0.0005, open-ended <= branches, and a strict < 50 bound for band 5), so
the claimed identity across all variants fails. -/
theorem c5_band_amended :
    (∀ st en : ℚ, band_sum_wvm st en = band_sum_cso st en) ∧
    (∀ st en : ℚ, band_sum_wvm st en = band_group_cso st en) ∧
    band_group_wvm true 0.0001 0.0001 ≠ band_sum_wvm 0.0001 0.0001 := by
  refine ⟨fun st en => rfl, fun st en => rfl, ?_⟩
  have h1 : band_group_wvm true 0.0001 0.0001 = "2" := by norm_num [band_group_wvm]
  have h2 : band_sum_wvm 0.0001 0.0001 = "unknown" := by norm_num [band_sum_wvm]
  rw [h1, h2]
  decide

/-- Claim C6, counterexample: the telescope criterion defaults to 'JCMT' in
the source signature, so calling with only semester supplied (all other
arguments left at their defaults) yields TWO fragments (semester and
telescope), not one; and supplying no criteria at all yields a nonempty
fragment list and a nonempty parameter mapping. -/
theorem c6_counterexample :
    (create_group_project_query (some "20A") none none none defaultTelescope).wherequery.length = 2 ∧
    (create_group_project_query none none none none defaultTelescope).wherequery ≠ [] ∧
    (create_group_project_query none none none none defaultTelescope).args ≠ [] := by
  decide

/-- Claim C6, amended: each supplied criterion contributes exactly one WHERE
fragment and each absent criterion contributes nothing, so the fragment
count is the number of truthy criteria; with telescope explicitly absent,
supplying only semester yields exactly the one semester fragment and one
parameter, and supplying nothing yields an empty fragment list and empty
parameter mapping — but with the default telescope='JCMT' the semester-only
call yields two fragments. -/
theorem c6_create_group_project_query_amended :
    (∀ s : String, s ≠ "" →
      (create_group_project_query (some s) none none none none).wherequery =
        [" p.semester=%(semester)s "] ∧
      (create_group_project_query (some s) none none none none).args =
        [("semester", s)] ∧
      (create_group_project_query (some s) none none none defaultTelescope).wherequery.length = 2) ∧
    (create_group_project_query none none none none none).wherequery = [] ∧
    (create_group_project_query none none none none none).args = [] ∧
    (∀ semester queue projects patternmatch telescope,
      (create_group_project_query semester queue projects patternmatch telescope).wherequery.length =
        (cond (oTruthy queue) 1 0) + (cond (oTruthy semester) 1 0) +
        (cond (pTruthy projects) 1 0) + (cond (oTruthy patternmatch) 1 0) +
        (cond (oTruthy telescope) 1 0)) := by
  refine ⟨?_, by decide, by decide, ?_⟩
  · intro s hs
    have hbeq : (s == "") = false := by
      simpa using hs
    refine ⟨?_, ?_, ?_⟩ <;>
      simp [create_group_project_query, oTruthy, pTruthy, defaultTelescope, hbeq]
  · intro semester queue projects patternmatch telescope
    unfold create_group_project_query
    cases oTruthy queue <;> cases oTruthy semester <;>
      cases pTruthy projects <;> cases oTruthy patternmatch <;>
      cases oTruthy telescope <;> simp

/-- Witness for the amended claim C6 at semester "20A". -/
theorem c6_amended_witness :
    (create_group_project_query (some "20A") none none none none).wherequery =
      [" p.semester=%(semester)s "] ∧
    (create_group_project_query (some "20A") none none none none).args =
      [("semester", "20A")] ∧
    (create_group_project_query (some "20A") none none none defaultTelescope).wherequery.length = 2 :=
  c6_create_group_project_query_amended.1 "20A" (by decide)

/-- Claim C7, counterexample: when the project lookup of get_project_info
matches two rows, the call does NOT surface an integrity error — it logs a
warning and returns a result built from the first row. -/
theorem c7_counterexample :
    exceptIsOk (get_project_info "M20AI001" [] [c7ProjRow1, c7ProjRow2]) = true ∧
    [c7ProjRow1, c7ProjRow2].length > 1 := by
  constructor
  · rfl
  · decide

/-- Claim C7, amended: get_obsid_status does surface the integrity error
immediately when more than one row matches; get_project_info does not — on
several matching project rows it returns the same result as if only the
first row had matched (raising only on zero rows). -/
theorem c7_single_row_lookups_amended :
    (∀ (logs : List OmpObsLog) (obsid : String) (r r' : OmpObsLog)
       (rest : List OmpObsLog),
      obsidStatusRows logs obsid = r :: r' :: rest →
      get_obsid_status logs obsid = Except.error "multiple status results for one obsid") ∧
    (∀ (pcode : String) (uservalues : List UserRow) (p : ProjRow)
       (ps : List ProjRow),
      get_project_info pcode uservalues (p :: ps) =
        get_project_info pcode uservalues [p]) := by
  constructor
  · intro logs obsid r r' rest h
    unfold get_obsid_status
    rw [h]
  · intro pcode uservalues p ps
    rfl

/-- Witness for the amended claim C7: two active log rows sharing obslogid 5
make get_obsid_status raise. -/
theorem c7_amended_witness :
    get_obsid_status c7LogsEx "obsW" =
      Except.error "multiple status results for one obsid" :=
  c7_single_row_lookups_amended.1 c7LogsEx "obsW"
    ⟨5, "obsW", 1, 1, 0⟩ ⟨5, "obsW", 1, 2, 0⟩ [] (by decide)

/-- Claim C8, counterexample: the ignore_instruments values passed to
find_obs_for_ingestion do NOT appear in the parameter mapping — the mapping
stays empty — and the values are interpolated directly into the query text
as quoted literals. -/
theorem c8_counterexample :
    (findObsWhereArgs none none (some ["POL-2"]) none false false).args = [] ∧
    instrListFragment ["POL-2"] ∈
      (findObsWhereArgs none none (some ["POL-2"]) none false false).whereList := by
  decide

/-- Claim C8, amended: query templates bind caller-supplied values through
named placeholders except for TWO literal-interpolation paths: project-id
collections in create_group_project_query (which never touch the parameter
mapping) and the ignore_instruments list in find_obs_for_ingestion, whose
values never enter the parameter mapping and are embedded in the query text
as a quoted literal fragment. -/
theorem c8_binding_amended :
    (∀ (us ue : Option Int) (ii : Option (List String)) (ma : Option Int)
       (nsc ntc : Bool),
      (findObsWhereArgs us ue ii ma nsc ntc).args =
        (findObsWhereArgs us ue none ma nsc ntc).args ∧
      (pTruthy ii = true →
        instrListFragment (ii.getD []) ∈ (findObsWhereArgs us ue ii ma nsc ntc).whereList)) ∧
    (∀ semester queue projects patternmatch telescope,
      (create_group_project_query semester queue projects patternmatch telescope).args =
        (create_group_project_query semester queue none patternmatch telescope).args) := by
  constructor
  · intro us ue ii ma nsc ntc
    constructor
    · cases us <;> cases ue <;> cases ma <;> rfl
    · intro h
      cases us <;> cases ue <;> cases ma <;> cases ntc <;>
        simp [findObsWhereArgs, h]
  · intro semester queue projects patternmatch telescope
    cases projects with
    | none => rfl
    | some l =>
      cases l with
      | nil => rfl
      | cons x xs =>
        unfold create_group_project_query
        cases oTruthy queue <;> cases oTruthy semester <;>
          cases oTruthy patternmatch <;> cases oTruthy telescope <;> rfl

/-- Witness for the amended claim C8 at a concrete instrument list. -/
theorem c8_amended_witness :
    (findObsWhereArgs none none (some ["AAA"]) none false false).args =
      (findObsWhereArgs none none none none false false).args ∧
    instrListFragment ["AAA"] ∈
      (findObsWhereArgs none none (some ["AAA"]) none false false).whereList :=
  ⟨(c8_binding_amended.1 none none (some ["AAA"]) none false false).1,
   (c8_binding_amended.1 none none (some ["AAA"]) none false false).2 (by decide)⟩

/-- Claim C9: passing an empty project-id collection to
create_group_project_query is exactly the same as omitting the criterion:
the returned select/from statements, fragment list and parameter mapping
all coincide, so no empty literal membership list is ever produced. -/
theorem c9_empty_projects (semester queue : Option String)
    (patternmatch telescope : Option String) :
    create_group_project_query semester queue (some []) patternmatch telescope =
      create_group_project_query semester queue none patternmatch telescope := rfl

/-- Claim C10: for an obsid with no active log rows, the MAX(obslogid)
subquery is NULL, the outer query matches nothing, and get_obsid_status
returns None rather than raising. -/
theorem c10_no_active_rows (logs : List OmpObsLog) (obsid : String)
    (h : activeLogs logs obsid = []) :
    get_obsid_status logs obsid = Except.ok none := by
  unfold get_obsid_status obsidStatusRows maxActiveObslogid
  rw [h]
  rfl

/-- Witness for claim C10: a log table whose only row for the obsid is
inactive. -/
theorem c10_witness : get_obsid_status c10LogsEx "obsV" = Except.ok none :=
  c10_no_active_rows c10LogsEx "obsV" (by decide)

end OmpDb
